import Mathlib

/-!
Shallow embedding of the `tech-article-refactor-agent` repository:
`technical_writer_agent.py` (the three-stage pipeline orchestrator) and
`db.py` (the PostgreSQL-backed record store), together with theorems about
the behaviour specified for them.

Effectful Python code is embedded as pure state-passing functions:
the file system is a map from paths to optional contents, the LLM client
is an oracle returning `Option String` (`none` models an exception raised
by the generation call), and the database is an explicit table value.
-/

/-- Modelled from the spec: the prompt templates live in `prompts.py`,
which is not among the repository sources; per spec §4.4 they are fixed
system-prompt strings plus pure substitution functions over the named
placeholders `article_content`, `analysis_content`, `blueprint_content`.
Each `...User` field models `TEMPLATE.format(...)` applied with the
keyword arguments used in `technical_writer_agent.py`. -/
structure Templates where
  analystSystem : String
  analystUser : String → String
  architectSystem : String
  architectUser : String → String → String
  writerSystem : String
  writerUser : String → String → String → String

/-- The arguments passed to `OptimizationLogRepository.insert`
(`db.py` lines 129-138): seven text fields and an optional evaluation. -/
structure InsertArgs where
  original_content : String
  analyst_prompt : String
  analyst_result : String
  architect_prompt : String
  architect_result : String
  writer_prompt : String
  writer_result : String
  evaluation : Option String
deriving DecidableEq

/-- The external effects of one pipeline run: the LLM generation call
(`none` models any exception raised inside `model.generate_content`) and
the record-store insert (`none` models any exception escaping
`OptimizationLogRepository.insert`; `some id` is the returned row id). -/
structure Effects where
  llm : String → String → Option String
  dbInsert : InsertArgs → Option Nat

/-- Observable outcome of `TechnicalWriterAgent.process`:
the sequence of LLM calls made (system prompt, user prompt), the file
writes performed (path, content), the successful record-store inserts,
whether the database-failure warning was printed, and the exit status
(`some 1` models `sys.exit(1)` from `_call_llm`; `none` is a normal
return from `process`). -/
structure RunResult where
  calls : List (String × String)
  fileWrites : List (String × String)
  dbInserts : List InsertArgs
  dbWarning : Bool
  exit : Option Nat
deriving DecidableEq

/-- Embedding of `TechnicalWriterAgent.process` (`technical_writer_agent.py`
lines 93-190). Reads the article (a missing file raises `FileNotFoundError`,
which is caught and turns into a plain `return`), runs the Analyst,
Architect and Writer stages in order (each via `_call_llm`, which calls
`sys.exit(1)` on any exception), accumulates `process_log`, writes the
output file, then attempts the database insert, downgrading its failure
to a warning. -/
def process (tpl : Templates) (eff : Effects) (fs : String → Option String)
    (article_path output_path : String) : RunResult :=
  match fs article_path with
  | none => ⟨[], [], [], false, none⟩
  | some article_content =>
    let analyst_user_prompt := tpl.analystUser article_content
    match eff.llm tpl.analystSystem analyst_user_prompt with
    | none => ⟨[(tpl.analystSystem, analyst_user_prompt)], [], [], false, some 1⟩
    | some analysis =>
      let log1 := "# 步骤 1: 诊断报告 (Analyst)\n\n" ++ analysis ++ "\n\n---\n\n"
      let architect_user_prompt := tpl.architectUser article_content analysis
      match eff.llm tpl.architectSystem architect_user_prompt with
      | none =>
          ⟨[(tpl.analystSystem, analyst_user_prompt),
            (tpl.architectSystem, architect_user_prompt)], [], [], false, some 1⟩
      | some blueprint =>
        let log2 := log1 ++ "# 步骤 2: 重构蓝图 (Architect)\n\n" ++ blueprint ++ "\n\n---\n\n"
        let writer_user_prompt := tpl.writerUser article_content analysis blueprint
        match eff.llm tpl.writerSystem writer_user_prompt with
        | none =>
            ⟨[(tpl.analystSystem, analyst_user_prompt),
              (tpl.architectSystem, architect_user_prompt),
              (tpl.writerSystem, writer_user_prompt)], [], [], false, some 1⟩
        | some rewritten_article =>
          let process_log := log2 ++ "# 步骤 3: 最终文章 (Article)\n\n" ++ rewritten_article ++ "\n\n"
          let args : InsertArgs :=
            { original_content := article_content
              analyst_prompt := "System Prompt:\n" ++ tpl.analystSystem ++ "\n\nUser Prompt:\n" ++ analyst_user_prompt
              analyst_result := analysis
              architect_prompt := "System Prompt:\n" ++ tpl.architectSystem ++ "\n\nUser Prompt:\n" ++ architect_user_prompt
              architect_result := blueprint
              writer_prompt := "System Prompt:\n" ++ tpl.writerSystem ++ "\n\nUser Prompt:\n" ++ writer_user_prompt
              writer_result := rewritten_article
              evaluation := none }
          let calls :=
            [(tpl.analystSystem, analyst_user_prompt),
             (tpl.architectSystem, architect_user_prompt),
             (tpl.writerSystem, writer_user_prompt)]
          match eff.dbInsert args with
          | some _id => ⟨calls, [(output_path, process_log)], [args], false, none⟩
          | none => ⟨calls, [(output_path, process_log)], [], true, none⟩

/-- Embedding of the `__main__` block (`technical_writer_agent.py`
lines 192-199) together with the constructor check for the API key
(lines 38-43): fewer than two positional arguments exits 1, a missing
`GEMINI_API_KEY` exits 1, otherwise `process` runs and the interpreter
exits with status 0 unless `sys.exit` was called inside. The returned
pair is (exit status, run outcome). -/
def mainEntry (tpl : Templates) (eff : Effects) (fs : String → Option String)
    (apiKey : Option String) (argv : List String) : Nat × RunResult :=
  if argv.length < 3 then (1, ⟨[], [], [], false, none⟩)
  else
    match apiKey with
    | none => (1, ⟨[], [], [], false, none⟩)
    | some _ =>
      let r := process tpl eff fs (argv.getD 1 "") (argv.getD 2 "")
      ((r.exit).getD 0, r)

/-- One row of `article_optimization_logs` as created by the DDL in
`OptimizationLogRepository.init_table` (`db.py` lines 106-127):
`id SERIAL PRIMARY KEY`, eight nullable text columns after the required
`original_content`, and `created_at TIMESTAMP WITH TIME ZONE DEFAULT
CURRENT_TIMESTAMP` (nullable, hence `Option Nat` with timestamps as
naturals). -/
structure Row where
  id : Nat
  original_content : String
  analyst_prompt : Option String
  analyst_result : Option String
  architect_prompt : Option String
  architect_result : Option String
  writer_prompt : Option String
  writer_result : Option String
  evaluation : Option String
  created_at : Option Nat
deriving DecidableEq

/-- The table state: the next value of the `id` serial sequence and the
stored rows in insertion order. -/
structure Table where
  nextId : Nat
  rows : List Row
deriving DecidableEq

/-- Invariant maintained by the serial id column: every stored id is
below the sequence's next value. -/
def Table.WF (t : Table) : Prop := ∀ r ∈ t.rows, r.id < t.nextId

instance (t : Table) : Decidable t.WF := by
  unfold Table.WF; infer_instance

/-- The column/value list of the `INSERT` statement issued by
`OptimizationLogRepository.insert` (`db.py` lines 143-159). For the
`created_at` column, `none` means the column is omitted from the column
list (so the database-side `DEFAULT CURRENT_TIMESTAMP` applies) and
`some v` means the column is named with the bound value `v` (itself
`Option Nat` since SQL NULL could be supplied). -/
structure InsertStmt where
  original_content : String
  analyst_prompt : Option String
  analyst_result : Option String
  architect_prompt : Option String
  architect_result : Option String
  writer_prompt : Option String
  writer_result : Option String
  evaluation : Option String
  created_at : Option (Option Nat)

/-- PostgreSQL execution of the parameterized `INSERT ... RETURNING id`:
assigns the serial id, fills `created_at` from the statement when the
column is named and from `DEFAULT CURRENT_TIMESTAMP` (the server clock
`serverNow`) when it is omitted, appends the row, and returns the id. -/
def execInsert (serverNow : Nat) (stmt : InsertStmt) (t : Table) : Table × Nat :=
  let row : Row :=
    { id := t.nextId
      original_content := stmt.original_content
      analyst_prompt := stmt.analyst_prompt
      analyst_result := stmt.analyst_result
      architect_prompt := stmt.architect_prompt
      architect_result := stmt.architect_result
      writer_prompt := stmt.writer_prompt
      writer_result := stmt.writer_result
      evaluation := stmt.evaluation
      created_at := stmt.created_at.getD (some serverNow) }
  ({ nextId := t.nextId + 1, rows := t.rows ++ [row] }, t.nextId)

/-- Events observable on the connection pool and the connection inside
`get_db_cursor` (`db.py` lines 81-97). -/
inductive DBEvent where
  | getconn (c : Nat)
  | commit
  | rollback
  | putconn (c : Nat)
deriving DecidableEq

/-- The outcome of one record-store operation: the pool afterwards, the
committed database state afterwards, the operation's result (`Except`
models a raised exception propagating to the caller), and the trace of
pool/transaction events. -/
structure OpOutcome (α : Type) where
  pool : List Nat
  db : Table
  result : Except String α
  events : List DBEvent

/-- Embedding of the `get_db_cursor` context manager (`db.py` lines
81-97): acquire a connection from the pool, run the body in a
transaction, `commit` if the body returns normally, `rollback` and
re-raise if it raises, and return the connection to the pool in the
`finally` block on both paths. An exhausted pool models
`pool.getconn()` itself raising, before any connection is held. The
body maps the committed table to either a new table plus a return
value, or a raised exception. -/
def get_db_cursor (p : List Nat) (db : Table)
    (body : Table → Except String (Table × α)) : OpOutcome α :=
  match p with
  | [] => ⟨[], db, .error "connection pool exhausted", []⟩
  | c :: rest =>
    match body db with
    | .ok (db', a) => ⟨c :: rest, db', .ok a, [.getconn c, .commit, .putconn c]⟩
    | .error e => ⟨c :: rest, db, .error e, [.getconn c, .rollback, .putconn c]⟩

/-- A single statement execution on the borrowed connection: `fail`
models the driver or server raising during the operation's body (for
example the store being unreachable); otherwise the computed result is
produced. -/
def execStep (fail : Option String) (x : α) : Except String α :=
  match fail with
  | some e => .error e
  | none => .ok x

/-- Ordering used by `ORDER BY created_at DESC`: row `a` may precede row
`b` when `a`'s timestamp is NULL (PostgreSQL places NULLs first in
descending order) or both are non-NULL with `a`'s value at least `b`'s. -/
def descLe (a b : Row) : Bool :=
  match a.created_at, b.created_at with
  | none, _ => true
  | some _, none => false
  | some x, some y => y ≤ x

namespace OptimizationLogRepository

/-- Body of `init_table` (`db.py` lines 105-127): DDL with
`IF NOT EXISTS`, leaving the rows unchanged. -/
def initTableBody (fail : Option String) (t : Table) : Except String (Table × Unit) :=
  execStep fail (t, ())

/-- `OptimizationLogRepository.init_table` through `get_db_cursor`. -/
def init_table (p : List Nat) (t : Table) (fail : Option String) : OpOutcome Unit :=
  get_db_cursor p t (initTableBody fail)

/-- Body of `insert` (`db.py` lines 142-162): the parameterized
`INSERT ... RETURNING id` whose column list explicitly names
`created_at` and binds it to `datetime.utcnow()` (the caller's clock
`clientNow`), then `fetchone()["id"]`. -/
def insertBody (args : InsertArgs) (clientNow : Nat) (serverNow : Nat)
    (fail : Option String) (t : Table) : Except String (Table × Nat) :=
  execStep fail
    (execInsert serverNow
      { original_content := args.original_content
        analyst_prompt := some args.analyst_prompt
        analyst_result := some args.analyst_result
        architect_prompt := some args.architect_prompt
        architect_result := some args.architect_result
        writer_prompt := some args.writer_prompt
        writer_result := some args.writer_result
        evaluation := args.evaluation
        created_at := some (some clientNow) } t)

/-- `OptimizationLogRepository.insert` through `get_db_cursor`. -/
def insert (p : List Nat) (t : Table) (args : InsertArgs)
    (clientNow serverNow : Nat) (fail : Option String) : OpOutcome Nat :=
  get_db_cursor p t (insertBody args clientNow serverNow fail)

/-- Body of `find_by_id` (`db.py` lines 164-173): `SELECT * WHERE id = %s`
followed by `fetchone()`, which yields the first matching row or `None`. -/
def findByIdBody (record_id : Nat) (fail : Option String) (t : Table) :
    Except String (Table × Option Row) :=
  execStep fail (t, t.rows.find? (fun r => r.id == record_id))

/-- `OptimizationLogRepository.find_by_id` through `get_db_cursor`. -/
def find_by_id (p : List Nat) (t : Table) (record_id : Nat)
    (fail : Option String) : OpOutcome (Option Row) :=
  get_db_cursor p t (findByIdBody record_id fail)

/-- Body of `find_all` (`db.py` lines 175-185):
`SELECT * ORDER BY created_at DESC LIMIT %s OFFSET %s`. -/
def findAllBody (limit offset : Nat) (fail : Option String) (t : Table) :
    Except String (Table × List Row) :=
  execStep fail (t, (((t.rows.mergeSort descLe).drop offset).take limit))

/-- `OptimizationLogRepository.find_all` through `get_db_cursor`. -/
def find_all (p : List Nat) (t : Table) (limit offset : Nat)
    (fail : Option String) : OpOutcome (List Row) :=
  get_db_cursor p t (findAllBody limit offset fail)

/-- Body of `count` (`db.py` lines 187-192): `SELECT COUNT(*)`. -/
def countBody (fail : Option String) (t : Table) : Except String (Table × Nat) :=
  execStep fail (t, t.rows.length)

/-- `OptimizationLogRepository.count` through `get_db_cursor`. -/
def count (p : List Nat) (t : Table) (fail : Option String) : OpOutcome Nat :=
  get_db_cursor p t (countBody fail)

end OptimizationLogRepository

/-- The configuration dictionary produced by `DatabaseConfig.get_config`
(`db.py` lines 28-38). -/
structure DBConfig where
  host : String
  port : Nat
  database : String
  user : String
  password : String
  minconn : Nat
  maxconn : Nat
deriving DecidableEq

/-- A constructed `ThreadedConnectionPool` object. The `tag` models
Python object identity (each construction yields a distinct object). -/
structure PoolInst where
  tag : Nat
  cfg : DBConfig
deriving DecidableEq

/-- The class-level state of `ConnectionPool` (`db.py` lines 41-78):
`_instance`, `_config`, plus `nextTag`, the supply of fresh object
identities for newly constructed pools. -/
structure PState where
  inst : Option PoolInst
  cfg : Option DBConfig
  nextTag : Nat
deriving DecidableEq

namespace ConnectionPool

/-- Embedding of `ConnectionPool.initialize` (`db.py` lines 47-64): when
`_instance` is `None`, resolve the config (the explicit argument, else
`DatabaseConfig.get_config()`, here `env`) and construct a fresh pool;
otherwise do nothing. -/
def initPool (env : DBConfig) (cfgArg : Option DBConfig) (s : PState) : PState :=
  match s.inst with
  | some _ => s
  | none =>
    let c := cfgArg.getD env
    { inst := some ⟨s.nextTag, c⟩, cfg := some c, nextTag := s.nextTag + 1 }

/-- Embedding of `ConnectionPool.get_pool` (`db.py` lines 66-71):
initialize lazily when `_instance` is `None`, then return `_instance`. -/
def get_pool (env : DBConfig) (s : PState) : PState × PoolInst :=
  match s.inst with
  | some p => (s, p)
  | none =>
    let s' := initPool env none s
    (s', s'.inst.getD ⟨s.nextTag, env⟩)

/-- Embedding of `ConnectionPool.close_all` (`db.py` lines 73-78): when
an instance exists, close it and reset `_instance` to `None` (leaving
`_config` as it was); otherwise do nothing. -/
def close_all (s : PState) : PState :=
  match s.inst with
  | some _ => { s with inst := none }
  | none => s

end ConnectionPool

/-! Concrete fixtures used by witnesses and counterexamples. -/

/-- A concrete template instantiation. -/
def tplW : Templates :=
  { analystSystem := "AS"
    analystUser := fun a => "AU:" ++ a
    architectSystem := "RS"
    architectUser := fun a x => "RU:" ++ a ++ x
    writerSystem := "WS"
    writerUser := fun a x y => "WU:" ++ a ++ x ++ y }

/-- A file system holding one article. -/
def fsW : String → Option String :=
  fun p => if p = "in.md" then some "art" else none

/-- Effects where every LLM call and the database insert succeed. -/
def effW : Effects :=
  { llm := fun _ _ => some "R", dbInsert := fun _ => some 1 }

/-- Effects where the LLM succeeds but the record store raises. -/
def effDbFail : Effects :=
  { llm := fun _ _ => some "R", dbInsert := fun _ => none }

/-- Effects where every LLM generation call raises. -/
def effLlmFail : Effects :=
  { llm := fun _ _ => none, dbInsert := fun _ => some 1 }

/-- C1: for every input article, the pipeline performs exactly the three
LLM calls Analyst, Architect, Writer in this order, the Analyst user
prompt being its template applied to the article, the Architect user
prompt its template applied to the article and the Analyst result, and
the Writer user prompt its template applied to the article, the Analyst
result and the Architect result; no stage is skipped or repeated and no
branching on content occurs. -/
theorem pipeline_three_stages_in_order
    (tpl : Templates) (eff : Effects) (fs : String → Option String)
    (article_path output_path article analysis blueprint rewritten : String)
    (hfs : fs article_path = some article)
    (h1 : eff.llm tpl.analystSystem (tpl.analystUser article) = some analysis)
    (h2 : eff.llm tpl.architectSystem (tpl.architectUser article analysis) = some blueprint)
    (h3 : eff.llm tpl.writerSystem (tpl.writerUser article analysis blueprint) = some rewritten) :
    (process tpl eff fs article_path output_path).calls =
      [(tpl.analystSystem, tpl.analystUser article),
       (tpl.architectSystem, tpl.architectUser article analysis),
       (tpl.writerSystem, tpl.writerUser article analysis blueprint)] := by
  simp only [process, hfs, h1, h2, h3]
  split <;> rfl

/-- Witness for C1 at a concrete article and oracle. -/
theorem pipeline_three_stages_in_order_witness :
    fsW "in.md" = some "art" ∧
    effW.llm tplW.analystSystem (tplW.analystUser "art") = some "R" ∧
    (process tplW effW fsW "in.md" "out.md").calls =
      [(tplW.analystSystem, tplW.analystUser "art"),
       (tplW.architectSystem, tplW.architectUser "art" "R"),
       (tplW.writerSystem, tplW.writerUser "art" "R" "R")] :=
  ⟨rfl, rfl,
    pipeline_three_stages_in_order tplW effW fsW "in.md" "out.md" "art" "R" "R" "R"
      rfl rfl rfl rfl⟩

/-- The combined `process_log` written to the output file by a fully
successful run (`technical_writer_agent.py` lines 127, 144, 160, 163-164). -/
def processLog (analysis blueprint rewritten : String) : String :=
  "# 步骤 1: 诊断报告 (Analyst)\n\n" ++ analysis ++ "\n\n---\n\n" ++
  "# 步骤 2: 重构蓝图 (Architect)\n\n" ++ blueprint ++ "\n\n---\n\n" ++
  "# 步骤 3: 最终文章 (Article)\n\n" ++ rewritten ++ "\n\n"

/-- The argument record handed to `OptimizationLogRepository.insert` by a
fully successful run (`technical_writer_agent.py` lines 175-187). -/
def fullInsertArgs (tpl : Templates) (article analysis blueprint rewritten : String) :
    InsertArgs :=
  { original_content := article
    analyst_prompt := "System Prompt:\n" ++ tpl.analystSystem ++ "\n\nUser Prompt:\n" ++ tpl.analystUser article
    analyst_result := analysis
    architect_prompt := "System Prompt:\n" ++ tpl.architectSystem ++ "\n\nUser Prompt:\n" ++ tpl.architectUser article analysis
    architect_result := blueprint
    writer_prompt := "System Prompt:\n" ++ tpl.writerSystem ++ "\n\nUser Prompt:\n" ++ tpl.writerUser article analysis blueprint
    writer_result := rewritten
    evaluation := none }

/-- C2: when the three LLM stages succeed and the record-store insert
raises, the failure is downgraded to a warning: the output file write
(with the success-path content) is intact, no row is inserted, the
warning is printed, `process` returns normally, and the overall run
exits with status 0. -/
theorem db_insert_failure_is_warning_only
    (tpl : Templates) (eff : Effects) (fs : String → Option String)
    (prog apiKey article_path output_path article analysis blueprint rewritten : String)
    (hfs : fs article_path = some article)
    (h1 : eff.llm tpl.analystSystem (tpl.analystUser article) = some analysis)
    (h2 : eff.llm tpl.architectSystem (tpl.architectUser article analysis) = some blueprint)
    (h3 : eff.llm tpl.writerSystem (tpl.writerUser article analysis blueprint) = some rewritten)
    (hdb : eff.dbInsert (fullInsertArgs tpl article analysis blueprint rewritten) = none) :
    (process tpl eff fs article_path output_path).fileWrites
        = [(output_path, processLog analysis blueprint rewritten)] ∧
    (process tpl eff fs article_path output_path).dbInserts = [] ∧
    (process tpl eff fs article_path output_path).dbWarning = true ∧
    (process tpl eff fs article_path output_path).exit = none ∧
    (mainEntry tpl eff fs (some apiKey) [prog, article_path, output_path]).1 = 0 := by
  simp only [fullInsertArgs, String.append_assoc] at hdb
  simp [process, mainEntry, hfs, h1, h2, h3, hdb, processLog, String.append_assoc]

/-- Witness for C2 at a concrete article and failing store. -/
theorem db_insert_failure_is_warning_only_witness :
    effDbFail.dbInsert (fullInsertArgs tplW "art" "R" "R" "R") = none ∧
    ((process tplW effDbFail fsW "in.md" "out.md").fileWrites
        = [("out.md", processLog "R" "R" "R")] ∧
     (process tplW effDbFail fsW "in.md" "out.md").dbInserts = [] ∧
     (process tplW effDbFail fsW "in.md" "out.md").dbWarning = true ∧
     (process tplW effDbFail fsW "in.md" "out.md").exit = none ∧
     (mainEntry tplW effDbFail fsW (some "k") ["prog", "in.md", "out.md"]).1 = 0) :=
  ⟨rfl,
    db_insert_failure_is_warning_only tplW effDbFail fsW
      "prog" "k" "in.md" "out.md" "art" "R" "R" "R" rfl rfl rfl rfl rfl⟩

/-- C3: if any of the three Adapter calls raises, the run exits with
status 1 (both inside `process` and at the interpreter level), nothing
is written to the output path, no row is inserted, and no retry occurs:
the call trace is exactly the prefix of the three staged calls ending at
the failing stage, each stage appearing at most once. -/
theorem llm_failure_aborts_without_output
    (tpl : Templates) (eff : Effects) (fs : String → Option String)
    (prog apiKey article_path output_path article : String)
    (hfs : fs article_path = some article)
    (hfail : ¬ ∃ analysis blueprint rewritten,
        eff.llm tpl.analystSystem (tpl.analystUser article) = some analysis ∧
        eff.llm tpl.architectSystem (tpl.architectUser article analysis) = some blueprint ∧
        eff.llm tpl.writerSystem (tpl.writerUser article analysis blueprint) = some rewritten) :
    (process tpl eff fs article_path output_path).fileWrites = [] ∧
    (process tpl eff fs article_path output_path).dbInserts = [] ∧
    (process tpl eff fs article_path output_path).exit = some 1 ∧
    (mainEntry tpl eff fs (some apiKey) [prog, article_path, output_path]).1 = 1 ∧
    ((process tpl eff fs article_path output_path).calls
        = [(tpl.analystSystem, tpl.analystUser article)] ∨
     (∃ analysis, eff.llm tpl.analystSystem (tpl.analystUser article) = some analysis ∧
        (process tpl eff fs article_path output_path).calls
          = [(tpl.analystSystem, tpl.analystUser article),
             (tpl.architectSystem, tpl.architectUser article analysis)]) ∨
     (∃ analysis blueprint,
        eff.llm tpl.analystSystem (tpl.analystUser article) = some analysis ∧
        eff.llm tpl.architectSystem (tpl.architectUser article analysis) = some blueprint ∧
        (process tpl eff fs article_path output_path).calls
          = [(tpl.analystSystem, tpl.analystUser article),
             (tpl.architectSystem, tpl.architectUser article analysis),
             (tpl.writerSystem, tpl.writerUser article analysis blueprint)])) := by
  cases h1 : eff.llm tpl.analystSystem (tpl.analystUser article) with
  | none => simp [process, mainEntry, hfs, h1]
  | some analysis =>
    cases h2 : eff.llm tpl.architectSystem (tpl.architectUser article analysis) with
    | none =>
      refine ⟨?_, ?_, ?_, ?_, Or.inr (Or.inl ⟨analysis, rfl, ?_⟩)⟩ <;>
        simp [process, mainEntry, hfs, h1, h2]
    | some blueprint =>
      cases h3 : eff.llm tpl.writerSystem (tpl.writerUser article analysis blueprint) with
      | none =>
        refine ⟨?_, ?_, ?_, ?_, Or.inr (Or.inr ⟨analysis, blueprint, rfl, h2, ?_⟩)⟩ <;>
          simp [process, mainEntry, hfs, h1, h2, h3]
      | some rewritten =>
        exact absurd ⟨analysis, blueprint, rewritten, h1, h2, h3⟩ hfail

/-- Witness for C3 with an adapter that raises on the first call. -/
theorem llm_failure_aborts_without_output_witness :
    (¬ ∃ analysis blueprint rewritten,
        effLlmFail.llm tplW.analystSystem (tplW.analystUser "art") = some analysis ∧
        effLlmFail.llm tplW.architectSystem (tplW.architectUser "art" analysis) = some blueprint ∧
        effLlmFail.llm tplW.writerSystem (tplW.writerUser "art" analysis blueprint) = some rewritten) ∧
    ((process tplW effLlmFail fsW "in.md" "out.md").fileWrites = [] ∧
     (process tplW effLlmFail fsW "in.md" "out.md").exit = some 1) := by
  have hf : ¬ ∃ analysis blueprint rewritten,
      effLlmFail.llm tplW.analystSystem (tplW.analystUser "art") = some analysis ∧
      effLlmFail.llm tplW.architectSystem (tplW.architectUser "art" analysis) = some blueprint ∧
      effLlmFail.llm tplW.writerSystem (tplW.writerUser "art" analysis blueprint) = some rewritten := by
    simp [effLlmFail]
  have h := llm_failure_aborts_without_output tplW effLlmFail fsW
    "prog" "k" "in.md" "out.md" "art" rfl hf
  exact ⟨hf, h.1, h.2.2.1⟩

/-- C4 counterexample: with an input path that does not exist, the
`FileNotFoundError` is caught inside `process`, which prints the error
and returns normally, so the interpreter exits with status 0 — refuting
the claimed non-zero (1) exit status. No output file is written and no
row is inserted. -/
theorem missing_input_exit_status_counterexample :
    (mainEntry tplW effW (fun _ => none) (some "k") ["prog", "absent.md", "out.md"]).1 = 0 ∧
    (mainEntry tplW effW (fun _ => none) (some "k") ["prog", "absent.md", "out.md"]).2.fileWrites = [] ∧
    (mainEntry tplW effW (fun _ => none) (some "k") ["prog", "absent.md", "out.md"]).2.dbInserts = [] :=
  ⟨rfl, rfl, rfl⟩

/-- C4 (amended): if the input article path does not exist, no output
file is created, zero rows are inserted, no LLM call is made, and the
process exits with status 0 (the input error is only printed; `process`
returns normally instead of calling `sys.exit(1)`). -/
theorem missing_input_no_output_no_rows
    (tpl : Templates) (eff : Effects) (fs : String → Option String)
    (prog apiKey article_path output_path : String)
    (hfs : fs article_path = none) :
    (mainEntry tpl eff fs (some apiKey) [prog, article_path, output_path]).1 = 0 ∧
    (process tpl eff fs article_path output_path).fileWrites = [] ∧
    (process tpl eff fs article_path output_path).dbInserts = [] ∧
    (process tpl eff fs article_path output_path).calls = [] := by
  simp [mainEntry, process, hfs]

/-- Witness for the amended C4 at a concrete missing path. -/
theorem missing_input_no_output_no_rows_witness :
    ((fun _ : String => (none : Option String)) "absent.md" = none) ∧
    ((mainEntry tplW effW (fun _ => none) (some "k") ["prog", "absent.md", "out.md"]).1 = 0 ∧
     (process tplW effW (fun _ => none) "absent.md" "out.md").fileWrites = [] ∧
     (process tplW effW (fun _ => none) "absent.md" "out.md").dbInserts = [] ∧
     (process tplW effW (fun _ => none) "absent.md" "out.md").calls = []) :=
  ⟨rfl, missing_input_no_output_no_rows tplW effW (fun _ => none)
    "prog" "k" "absent.md" "out.md" rfl⟩

/-- Is `pat` a prefix of `s` (on character lists)? -/
def startsWithL : List Char → List Char → Bool
  | [], _ => true
  | _ :: _, [] => false
  | a :: as, b :: bs => a == b && startsWithL as bs

/-- Does `pat` occur as a contiguous substring of `s` (on character
lists)? -/
def occursInL (pat : List Char) : List Char → Bool
  | [] => pat.isEmpty
  | b :: bs => startsWithL pat (b :: bs) || occursInL pat bs

/-- C5 counterexample: the output artifact of a concrete fully
successful run contains none of the claimed English headings
"Step 1: Diagnostic Report", "Step 2: Refactor Blueprint",
"Step 3: Final Article" — the file's actual headings are the Chinese
ones of `processLog` — refuting the claim as stated. -/
theorem output_headings_counterexample :
    (process tplW effW fsW "in.md" "out.md").fileWrites =
      [("out.md", processLog "R" "R" "R")] ∧
    occursInL ("Step 1: Diagnostic Report".toList) ((processLog "R" "R" "R").toList) = false ∧
    occursInL ("Step 2: Refactor Blueprint".toList) ((processLog "R" "R" "R").toList) = false ∧
    occursInL ("Step 3: Final Article".toList) ((processLog "R" "R" "R").toList) = false := by
  refine ⟨by decide, by decide, by decide, by decide⟩

/-- C5 (amended): on a fully successful run the single write to the
output path is exactly, in order: the level-1 heading
"# 步骤 1: 诊断报告 (Analyst)" followed by the Analyst result, the
separator "---", the heading "# 步骤 2: 重构蓝图 (Architect)" followed by
the Architect result, the separator "---", and the heading
"# 步骤 3: 最终文章 (Article)" followed by the Writer result and a final
blank line (all as concatenated by `processLog`). -/
theorem output_artifact_structure
    (tpl : Templates) (eff : Effects) (fs : String → Option String)
    (article_path output_path article analysis blueprint rewritten : String)
    (hfs : fs article_path = some article)
    (h1 : eff.llm tpl.analystSystem (tpl.analystUser article) = some analysis)
    (h2 : eff.llm tpl.architectSystem (tpl.architectUser article analysis) = some blueprint)
    (h3 : eff.llm tpl.writerSystem (tpl.writerUser article analysis blueprint) = some rewritten) :
    (process tpl eff fs article_path output_path).fileWrites =
      [(output_path, processLog analysis blueprint rewritten)] := by
  simp only [process, hfs, h1, h2, h3]
  split <;> simp [processLog, String.append_assoc]

/-- Witness for the amended C5 at a concrete run. -/
theorem output_artifact_structure_witness :
    fsW "in.md" = some "art" ∧
    (process tplW effW fsW "in.md" "out.md").fileWrites =
      [("out.md", processLog "R" "R" "R")] :=
  ⟨rfl, output_artifact_structure tplW effW fsW "in.md" "out.md" "art" "R" "R" "R"
    rfl rfl rfl rfl⟩

/-- A fresh serial id is found in no well-formed row list. -/
theorem find_fresh_id_none (rows : List Row) (n : Nat) (h : ∀ r ∈ rows, r.id < n) :
    rows.find? (fun r => r.id == n) = none := by
  apply List.find?_eq_none.mpr
  intro r hr
  simpa using Nat.ne_of_lt (h r hr)

/-- C6: on a well-formed table, `insert` returns the fresh serial id,
and `find_by_id` with that id on the resulting table yields a row whose
fields equal the inserted values, with `created_at` populated (non-NULL,
namely the client clock value supplied by `insert`). -/
theorem insert_find_by_id_roundtrip
    (c : Nat) (rest : List Nat) (t : Table) (args : InsertArgs)
    (clientNow serverNow : Nat) (hwf : t.WF) :
    (OptimizationLogRepository.insert (c :: rest) t args clientNow serverNow none).result
      = .ok t.nextId ∧
    (OptimizationLogRepository.find_by_id (c :: rest)
        (OptimizationLogRepository.insert (c :: rest) t args clientNow serverNow none).db
        t.nextId none).result =
      .ok (some
        { id := t.nextId
          original_content := args.original_content
          analyst_prompt := some args.analyst_prompt
          analyst_result := some args.analyst_result
          architect_prompt := some args.architect_prompt
          architect_result := some args.architect_result
          writer_prompt := some args.writer_prompt
          writer_result := some args.writer_result
          evaluation := args.evaluation
          created_at := some clientNow }) ∧
    (Option.some clientNow).isSome = true := by
  refine ⟨rfl, ?_, rfl⟩
  unfold OptimizationLogRepository.find_by_id OptimizationLogRepository.findByIdBody
    OptimizationLogRepository.insert OptimizationLogRepository.insertBody
    get_db_cursor execStep execInsert
  simp [find_fresh_id_none t.rows t.nextId hwf]

/-- Witness for C6 on the empty table. -/
theorem insert_find_by_id_roundtrip_witness :
    Table.WF ⟨1, []⟩ ∧
    (OptimizationLogRepository.insert [0] ⟨1, []⟩
        ⟨"o", "ap", "ar", "bp", "br", "wp", "wr", none⟩ 5 9 none).result = .ok 1 ∧
    (OptimizationLogRepository.find_by_id [0]
        (OptimizationLogRepository.insert [0] ⟨1, []⟩
          ⟨"o", "ap", "ar", "bp", "br", "wp", "wr", none⟩ 5 9 none).db 1 none).result =
      .ok (some ⟨1, "o", some "ap", some "ar", some "bp", some "br", some "wp", some "wr", none, some 5⟩) := by
  have h := insert_find_by_id_roundtrip 0 [] ⟨1, []⟩
    ⟨"o", "ap", "ar", "bp", "br", "wp", "wr", none⟩ 5 9 (by decide)
  exact ⟨by decide, h.1, h.2.1⟩

/-- Transitivity of the `ORDER BY created_at DESC` comparison. -/
theorem descLe_trans (a b c : Row) (h1 : descLe a b) (h2 : descLe b c) : descLe a c := by
  unfold descLe at h1 h2 ⊢
  rcases ha : a.created_at with _ | x <;> rcases hb : b.created_at with _ | y <;>
    rcases hc : c.created_at with _ | z <;> simp_all <;> omega

/-- Totality of the `ORDER BY created_at DESC` comparison. -/
theorem descLe_total (a b : Row) : descLe a b || descLe b a := by
  unfold descLe
  cases a.created_at <;> cases b.created_at <;> simp <;> omega

/-- C7: for every limit and offset, `find_all` succeeds with a list of
at most `limit` rows, ordered by `created_at` descending (newest first,
NULL timestamps first as PostgreSQL sorts them in descending order). -/
theorem find_all_limit_and_order
    (c : Nat) (rest : List Nat) (t : Table) (limit offset : Nat) :
    ∃ l, (OptimizationLogRepository.find_all (c :: rest) t limit offset none).result = .ok l ∧
      l.length ≤ limit ∧ l.Pairwise (fun a b => descLe a b = true) := by
  refine ⟨((t.rows.mergeSort descLe).drop offset).take limit, rfl, ?_, ?_⟩
  · exact List.length_take_le limit _
  · exact List.Pairwise.sublist ((List.take_sublist _ _).trans (List.drop_sublist _ _))
      (List.sorted_mergeSort descLe_trans descLe_total t.rows)

/-- C8: every record-store operation — each of `init_table`, `insert`,
`find_by_id`, `find_all` and `count` being exactly `get_db_cursor`
applied to its body, as the trailing conjuncts record — acquires one
pooled connection, commits and keeps the body's new table state when
the body returns normally, rolls back (leaving the table unchanged) and
re-raises when the body raises, and on both exit paths returns that
same connection to the pool, which ends in its original state. -/
theorem record_store_connection_discipline {α : Type}
    (c : Nat) (rest : List Nat) (db : Table)
    (body : Table → Except String (Table × α)) :
    (get_db_cursor (c :: rest) db body).pool = c :: rest ∧
    ((∃ db' a, body db = .ok (db', a) ∧
        get_db_cursor (c :: rest) db body =
          ⟨c :: rest, db', .ok a, [.getconn c, .commit, .putconn c]⟩) ∨
     (∃ e, body db = .error e ∧
        get_db_cursor (c :: rest) db body =
          ⟨c :: rest, db, .error e, [.getconn c, .rollback, .putconn c]⟩)) ∧
    (∀ fail, OptimizationLogRepository.init_table (c :: rest) db fail
        = get_db_cursor (c :: rest) db (OptimizationLogRepository.initTableBody fail)) ∧
    (∀ args cn sn fail, OptimizationLogRepository.insert (c :: rest) db args cn sn fail
        = get_db_cursor (c :: rest) db (OptimizationLogRepository.insertBody args cn sn fail)) ∧
    (∀ rid fail, OptimizationLogRepository.find_by_id (c :: rest) db rid fail
        = get_db_cursor (c :: rest) db (OptimizationLogRepository.findByIdBody rid fail)) ∧
    (∀ lim off fail, OptimizationLogRepository.find_all (c :: rest) db lim off fail
        = get_db_cursor (c :: rest) db (OptimizationLogRepository.findAllBody lim off fail)) ∧
    (∀ fail, OptimizationLogRepository.count (c :: rest) db fail
        = get_db_cursor (c :: rest) db (OptimizationLogRepository.countBody fail)) := by
  refine ⟨?_, ?_, fun _ => rfl, fun _ _ _ _ => rfl, fun _ _ => rfl, fun _ _ _ => rfl, fun _ => rfl⟩
  · cases hb : body db with
    | ok pr => simp [get_db_cursor, hb]
    | error e => simp [get_db_cursor, hb]
  · cases hb : body db with
    | ok pr =>
      obtain ⟨db', a⟩ := pr
      exact Or.inl ⟨db', a, rfl, by simp [get_db_cursor, hb]⟩
    | error e =>
      exact Or.inr ⟨e, rfl, by simp [get_db_cursor, hb]⟩

/-- C9: the row stored by `insert` carries `created_at` equal to the
caller's clock (`datetime.utcnow()` bound in the parameter list), the
outcome is entirely independent of the server clock behind
`DEFAULT CURRENT_TIMESTAMP`, whereas executing the same `INSERT` with
the `created_at` column omitted would have stored the server clock. -/
theorem insert_created_at_is_client_clock
    (c : Nat) (rest : List Nat) (t : Table) (args : InsertArgs)
    (clientNow serverNow serverNow' : Nat) :
    (OptimizationLogRepository.insert (c :: rest) t args clientNow serverNow none).db.rows
      = t.rows ++
        [{ id := t.nextId
           original_content := args.original_content
           analyst_prompt := some args.analyst_prompt
           analyst_result := some args.analyst_result
           architect_prompt := some args.architect_prompt
           architect_result := some args.architect_result
           writer_prompt := some args.writer_prompt
           writer_result := some args.writer_result
           evaluation := args.evaluation
           created_at := some clientNow }] ∧
    OptimizationLogRepository.insert (c :: rest) t args clientNow serverNow none
      = OptimizationLogRepository.insert (c :: rest) t args clientNow serverNow' none ∧
    (execInsert serverNow
        { original_content := args.original_content
          analyst_prompt := some args.analyst_prompt
          analyst_result := some args.analyst_result
          architect_prompt := some args.architect_prompt
          architect_result := some args.architect_result
          writer_prompt := some args.writer_prompt
          writer_result := some args.writer_result
          evaluation := args.evaluation
          created_at := none } t).1.rows
      = t.rows ++
        [{ id := t.nextId
           original_content := args.original_content
           analyst_prompt := some args.analyst_prompt
           analyst_result := some args.analyst_result
           architect_prompt := some args.architect_prompt
           architect_result := some args.architect_result
           writer_prompt := some args.writer_prompt
           writer_result := some args.writer_result
           evaluation := args.evaluation
           created_at := some serverNow }] :=
  ⟨rfl, rfl, rfl⟩

/-- C10: the pool is a first-configuration-wins process-wide singleton:
with an instance present, `initPool` (the embedding of
`ConnectionPool.initialize`) is a no-op even for a different
configuration and `get_pool` returns the existing instance unchanged;
with no instance, `initPool` constructs from the supplied (else the
environment) configuration and `get_pool` lazily constructs and returns
a fresh instance; `close_all` resets the instance to `None`, and the
next `get_pool` after `close_all` constructs a pool distinct from the
one previously held. -/
theorem connection_pool_singleton
    (env env' cfgA : DBConfig) (cArg : Option DBConfig) (s : PState) (p : PoolInst)
    (hp : s.inst = some p) (htag : p.tag < s.nextTag) :
    ConnectionPool.initPool env' cArg s = s ∧
    ConnectionPool.get_pool env' s = (s, p) ∧
    (∀ s' : PState, s'.inst = none →
        ConnectionPool.initPool env' (some cfgA) s' =
          { inst := some ⟨s'.nextTag, cfgA⟩, cfg := some cfgA, nextTag := s'.nextTag + 1 }) ∧
    (∀ s' : PState, s'.inst = none →
        ConnectionPool.get_pool env s' =
          ({ inst := some ⟨s'.nextTag, env⟩, cfg := some env, nextTag := s'.nextTag + 1 },
           ⟨s'.nextTag, env⟩)) ∧
    (ConnectionPool.close_all s).inst = none ∧
    (ConnectionPool.get_pool env (ConnectionPool.close_all s)).2 ≠ p := by
  refine ⟨?_, ?_, ?_, ?_, ?_, ?_⟩
  · simp [ConnectionPool.initPool, hp]
  · simp [ConnectionPool.get_pool, hp]
  · intro s' hs'
    simp [ConnectionPool.initPool, hs']
  · intro s' hs'
    simp [ConnectionPool.get_pool, ConnectionPool.initPool, hs']
  · simp [ConnectionPool.close_all, hp]
  · have hfresh : (ConnectionPool.get_pool env (ConnectionPool.close_all s)).2
        = ⟨s.nextTag, env⟩ := by
      simp [ConnectionPool.close_all, ConnectionPool.get_pool, ConnectionPool.initPool, hp]
    rw [hfresh]
    intro hcontra
    have htag' := congrArg PoolInst.tag hcontra
    simp at htag'
    omega

/-- Witness for C10 at a concrete pool state holding one instance. -/
theorem connection_pool_singleton_witness :
    ((⟨some ⟨0, ⟨"h", 5432, "d", "u", "", 1, 10⟩⟩,
       some ⟨"h", 5432, "d", "u", "", 1, 10⟩, 1⟩ : PState).inst
        = some ⟨0, ⟨"h", 5432, "d", "u", "", 1, 10⟩⟩) ∧
    (ConnectionPool.get_pool ⟨"h2", 5433, "d2", "u2", "pw", 2, 20⟩
        (⟨some ⟨0, ⟨"h", 5432, "d", "u", "", 1, 10⟩⟩,
          some ⟨"h", 5432, "d", "u", "", 1, 10⟩, 1⟩ : PState)
      = (⟨some ⟨0, ⟨"h", 5432, "d", "u", "", 1, 10⟩⟩,
          some ⟨"h", 5432, "d", "u", "", 1, 10⟩, 1⟩,
         ⟨0, ⟨"h", 5432, "d", "u", "", 1, 10⟩⟩)) ∧
    (ConnectionPool.get_pool ⟨"h", 5432, "d", "u", "", 1, 10⟩
        (ConnectionPool.close_all
          (⟨some ⟨0, ⟨"h", 5432, "d", "u", "", 1, 10⟩⟩,
            some ⟨"h", 5432, "d", "u", "", 1, 10⟩, 1⟩ : PState))).2
      ≠ ⟨0, ⟨"h", 5432, "d", "u", "", 1, 10⟩⟩ := by
  have h := connection_pool_singleton
    ⟨"h", 5432, "d", "u", "", 1, 10⟩ ⟨"h2", 5433, "d2", "u2", "pw", 2, 20⟩
    ⟨"h", 5432, "d", "u", "", 1, 10⟩ none
    (⟨some ⟨0, ⟨"h", 5432, "d", "u", "", 1, 10⟩⟩,
      some ⟨"h", 5432, "d", "u", "", 1, 10⟩, 1⟩ : PState)
    ⟨0, ⟨"h", 5432, "d", "u", "", 1, 10⟩⟩ rfl (by decide)
  exact ⟨rfl, h.2.1, h.2.2.2.2.2⟩
